import Mathlib

/-!
Shallow embedding of the Health and Fitness Club Management System
(`app/member_functions.py`, `app/admin_functions.py`, `models/*.py`).

Conventions of the embedding:

* Python strings are `List Char` (`PyStr`); `str.strip` / `str.lower` /
  `str.upper` are `pyStrip` / `pyLower` / `pyUpper`, and Python string
  truthiness (`if s:`) is non-emptiness.
* `datetime.date` values are day numbers (`Int`); `(a - b).days` is `a - b`,
  and `timedelta(weeks=52)` is 364 days.  The ambient clock `date.today()`
  is an explicit `today : Int` argument of each operation.
* `datetime.time` values are seconds since midnight (`Nat`).  The checks on
  `total_seconds() / 60` are expressed on whole seconds (e.g. `< 15` minutes
  becomes `< 900` seconds), and `int(total_seconds() / 60)` is natural
  division by 60, exact for the nonnegative differences that reach it.
* SQL `Numeric` columns and Python floats are exact rationals (`Rat`).
* The SQLAlchemy session together with the database is one `Store`; ORM
  attribute assignment mutates the store record immediately (the session's
  identity map), `db.commit()` is the point where a DB-level uniqueness
  constraint (`unique=True`) can still reject an insert (`IntegrityError`,
  converted by the code to `ValueError`), and an operation is a function
  `Store → Store × Except Err α`.
* Every `raise ValueError(msg)` becomes a distinct `Err` constructor
  carrying the values interpolated into `msg`; all errors of the source are
  `ValueError`s, so `Err` as a whole models "fails with Invalid Input".
* Autoincrement primary keys are modelled by explicit `next…ID` counters.
-/

namespace Gym

/-- Python strings as lists of characters. -/
abbrev PyStr := List Char

/-- String literal to `PyStr`. -/
def pystr (s : String) : PyStr := s.data

/-- Python `str.strip` default whitespace set (ASCII part). -/
def pyIsSpace (c : Char) : Bool :=
  c == ' ' || c == '\t' || c == '\n' || c == '\r' || c == '\x0b' || c == '\x0c'

/-- Python `str.strip()`: drop whitespace at both ends. -/
def pyStrip (s : PyStr) : PyStr :=
  ((s.dropWhile pyIsSpace).reverse.dropWhile pyIsSpace).reverse

/-- Python `str.lower()` (ASCII case mapping). -/
def pyLower (s : PyStr) : PyStr := s.map Char.toLower

/-- Python `str.upper()` (ASCII case mapping). -/
def pyUpper (s : PyStr) : PyStr := s.map Char.toUpper

/-- Python truthiness of a string: `""` is falsy. -/
def pyFalsy (s : PyStr) : Bool := s.isEmpty

/-- Python truthiness of an `Optional[str]`: `None` and `""` are falsy. -/
def pyTruthyStr : Option PyStr → Bool
  | none => false
  | some s => !s.isEmpty

/-- Python truthiness of an `Optional[int]`: `None` and `0` are falsy. -/
def pyTruthyInt : Option Int → Bool
  | none => false
  | some n => n != 0

/-- Unwrap an optional string that truthiness has already established. -/
def strVal (o : Option PyStr) : PyStr := o.getD []

/-- Unwrap an optional integer that truthiness has already established. -/
def intVal (o : Option Int) : Int := o.getD 0

/-- Python `email.split('@')[-1]`: the suffix after the last `'@'`
(the whole string when no `'@'` occurs). -/
def afterLastAt (s : PyStr) : PyStr :=
  (s.reverse.takeWhile (fun c => c ≠ '@')).reverse

/-- Replace the first list element satisfying `p` (the ORM identity-map row
found by `.first()`) by `a`; used to model in-place ORM attribute updates. -/
def replaceFirst (p : α → Bool) (a : α) : List α → List α
  | [] => []
  | x :: xs => if p x then a :: xs else x :: replaceFirst p a xs

/-- Python `round(x, 2)` (round half to even) on exact rationals. -/
def pyRound2 (a : ℚ) : ℚ :=
  let n : Int := Int.floor (a * 100)
  let r : ℚ := a * 100 - (n : ℚ)
  let k : Int :=
    if r < 1/2 then n
    else if 1/2 < r then n + 1
    else if n % 2 = 0 then n else n + 1
  (k : ℚ) / 100

/-! ## Data model (`models/*.py`) -/

/-- `models/member.py` — table `Member`. -/
structure Member where
  MemberID : Int
  FirstName : PyStr
  LastName : PyStr
  DateOfBirth : Option Int := none
  Gender : Option PyStr := none
  Email : PyStr
  Phone : Option PyStr := none
  Address : Option PyStr := none
  JoinDate : Option Int := none
  MembershipStatus : PyStr := pystr "Active"
deriving DecidableEq, Repr

/-- `models/trainer.py` — table `Trainer`. -/
structure Trainer where
  TrainerID : Int
  FirstName : PyStr
  LastName : PyStr
  DateOfBirth : Option Int := none
  Gender : Option PyStr := none
  Email : PyStr
  Phone : Option PyStr := none
  Specialty : Option PyStr := none
  HireDate : Option Int := none
deriving DecidableEq, Repr

/-- `models/room.py` — table `Room`. -/
structure Room where
  RoomID : Int
  RoomNumber : PyStr
  RoomCapacity : Option Int := none
  RoomType : Option PyStr := none
  AccessPermissions : Option PyStr := none
deriving DecidableEq, Repr

/-- `models/admin_staff.py` — table `AdminStaff`. -/
structure AdminStaff where
  AdminID : Int
  FirstName : PyStr
  LastName : PyStr
  DateOfBirth : Option Int := none
  Gender : Option PyStr := none
  Email : PyStr
  Phone : Option PyStr := none
  Role : Option PyStr := none
  HireDate : Option Int := none
deriving DecidableEq, Repr

/-- `models/personal_training_session.py` — table `PersonalTrainingSession`. -/
structure PersonalTrainingSession where
  SessionID : Int
  TrainerID : Int
  MemberID : Int
  RoomID : Option Int := none
  SessionDate : Int
  StartTime : Nat
  EndTime : Nat
  DurationMinutes : Option Int := none
  SessionType : PyStr := pystr "Personal Training"
  MaxCapacity : Option Int := none
  CurrentEnrollment : Int := 0
  Notes : Option PyStr := none
deriving DecidableEq, Repr

/-- `models/health_metric.py` — table `HealthMetric`. -/
structure HealthMetric where
  HealthMetricID : Int
  MemberID : Int
  RecordedDate : Int
  Height : Option ℚ := none
  Weight : Option ℚ := none
  BodyFatPercentage : Option ℚ := none
  RestingHeartRate : Option Int := none
  Notes : Option PyStr := none
deriving DecidableEq, Repr

/-- `models/fitness_goal.py` — table `FitnessGoal`. -/
structure FitnessGoal where
  GoalID : Int
  MemberID : Int
  GoalType : PyStr
  TargetBodyWeight : Option ℚ := none
  TargetBodyFatPercentage : Option ℚ := none
  SetDate : Option Int := none
  TargetDate : Option Int := none
  GoalStatus : PyStr := pystr "Active"
  Notes : Option PyStr := none
deriving DecidableEq, Repr

/-- `models/invoice.py` — table `Invoice`. -/
structure Invoice where
  InvoiceID : Int
  InvoiceNumber : PyStr
  PayerID : Int
  SessionID : Option Int := none
  InvoiceDate : Int
  DueDate : Int
  Amount : ℚ
  PaymentMethod : Option PyStr := none
  PaymentStatus : PyStr := pystr "Pending"
  ServiceDescription : Option PyStr := none
  PaidDate : Option Int := none
deriving DecidableEq, Repr

/-- `models/maintenance_issue.py` — table `MaintenanceIssue`. -/
structure MaintenanceIssue where
  IssueID : Int
  RoomID : Int
  AdminID : Int
  IssueDescription : PyStr
  EquipmentName : Option PyStr := none
  ReportedDate : Int
  Priority : PyStr := pystr "Medium"
  Status : PyStr := pystr "Open"
  AssignedRepairDate : Option Int := none
  ResolutionDate : Option Int := none
  ResolutionNotes : Option PyStr := none
deriving DecidableEq, Repr

/-- The database as seen through the single shared SQLAlchemy session
(`cli.py` opens one `SessionLocal()` for the whole process). -/
structure Store where
  members : List Member := []
  trainers : List Trainer := []
  rooms : List Room := []
  admins : List AdminStaff := []
  sessions : List PersonalTrainingSession := []
  health_metrics : List HealthMetric := []
  fitness_goals : List FitnessGoal := []
  invoices : List Invoice := []
  issues : List MaintenanceIssue := []
  nextMemberID : Int := 1
  nextSessionID : Int := 1
  nextMetricID : Int := 1
  nextGoalID : Int := 1
  nextIssueID : Int := 1
  nextInvoiceID : Int := 1
deriving DecidableEq, Repr

/-- One constructor per `raise ValueError(...)` site of the embedded
operations, carrying the values interpolated into the message. -/
inductive Err where
  | firstNameRequired
  | lastNameRequired
  | emailRequired
  | emailInvalidFormat
  | firstNameTooLong
  | lastNameTooLong
  | emailTooLong
  | dobInFuture
  | dobTooOld
  | dobTooYoung
  | genderInvalid
  | membershipStatusInvalid
  | emailExists (email : PyStr)
  | memberIdInvalid
  | noFieldProvided
  | memberNotFound (id : Int)
  | firstNameEmpty
  | lastNameEmpty
  | phoneTooLong
  | addressTooLong
  | dobInvalid
  | goalTypeRequired
  | goalTypeTooLong
  | targetWeightNonPositive
  | targetWeightTooLarge
  | targetFatOutOfRange
  | targetDateInPast
  | targetDateTooFar
  | goalStatusInvalid
  | noTargetProvided
  | recordedDateInFuture
  | recordedDateTooOld
  | noMetricProvided
  | heightNonPositive
  | heightTooLarge
  | weightNonPositive
  | weightTooLarge
  | bodyFatOutOfRange
  | heartRateNonPositive
  | heartRateOutOfRange
  | trainerIdInvalid
  | roomIdInvalid
  | sessionDateInPast
  | sessionDateTooFar
  | startNotBeforeEnd
  | durationTooShort
  | durationTooLong
  | sessionTypeInvalid
  | groupCapacityRequired
  | groupCapacityTooHigh
  | trainerNotFound (id : Int)
  | roomNotFound (id : Int)
  | capacityExceedsRoom (maxCapacity roomCapacity : Int)
  | trainerConflict (sessionId : Int) (startTime endTime : Nat)
  | roomBooked (sessionId : Int) (startTime endTime : Nat)
  | memberBusy (sessionId : Int)
  | sessionIdInvalid
  | sessionNotFound (id : Int)
  | pastSessionRoomAssign
  | roomAlreadyAssigned (roomId : Int)
  | capacityExceedsRoomAssign (maxCapacity roomCapacity : Int)
  | roomBookedAssign (sessionId : Int) (startTime : Nat) (sessionDate : Int)
  | adminIdInvalid
  | descriptionRequired
  | descriptionTooLong
  | equipmentNameTooLong
  | priorityInvalid
  | reportedDateInFuture
  | reportedDateTooOld
  | adminNotFound (id : Int)
  | issueIdInvalid
  | issueNotFound (id : Int)
  | statusInvalid
  | closedIssueImmutable
  | resolvedOnlyClose
  | repairBeforeReported
  | repairTooFar
  | resolutionNeedsResolvedStatus
  | resolutionBeforeReported
  | resolutionInFuture
  | resolutionBeforeRepair
  | resolutionNotesTooLong
  | payerIdInvalid
  | invoiceNumberRequired
  | invoiceNumberTooLong
  | serviceDescriptionRequired
  | serviceDescriptionTooLong
  | invoiceDateInFuture
  | invoiceDateTooOld
  | dueBeforeInvoiceDate
  | dueDateTooFar
  | amountNonPositive
  | amountTooLarge
  | paymentMethodTooLong
  | sessionNotOwned (sessionId payerId : Int)
  | invoiceNumberExists (invoiceNumber : PyStr)
  | invoiceIdInvalid
  | paymentMethodRequired
  | paidDateInFuture
  | invoiceNotFound (id : Int)
  | alreadyPaid (id : Int)
  | paidBeforeInvoiceDate
deriving Repr

/-- The result of an operation on the shared session: the store after the
call (mutations staged in the identity map included) and either the
returned record or the raised `ValueError`. -/
abbrev Res (α : Type) := Store × Except Err α

/-- In-place ORM update of the member row found by `MemberID == id`. -/
def setMember (st : Store) (id : Int) (m : Member) : Store :=
  { st with members := replaceFirst (fun x => decide (x.MemberID = id)) m st.members }

/-- In-place ORM update of the session row found by `SessionID == id`. -/
def setSession (st : Store) (id : Int) (s : PersonalTrainingSession) : Store :=
  { st with sessions := replaceFirst (fun x => decide (x.SessionID = id)) s st.sessions }

/-- In-place ORM update of the issue row found by `IssueID == id`. -/
def setIssue (st : Store) (id : Int) (i : MaintenanceIssue) : Store :=
  { st with issues := replaceFirst (fun x => decide (x.IssueID = id)) i st.issues }

/-- In-place ORM update of the invoice row found by `InvoiceID == id`. -/
def setInvoice (st : Store) (id : Int) (i : Invoice) : Store :=
  { st with invoices := replaceFirst (fun x => decide (x.InvoiceID = id)) i st.invoices }

/-- Valid gender codes of `register_member` / `update_profile`
(`['M', 'F', 'O', '']`). -/
def validGenders : List PyStr := [pystr "M", pystr "F", pystr "O", pystr ""]

/-- `['Active', 'Inactive', 'Suspended', 'Cancelled']`. -/
def validMembershipStatuses : List PyStr :=
  [pystr "Active", pystr "Inactive", pystr "Suspended", pystr "Cancelled"]

/-- `['Active', 'Completed', 'Cancelled', 'On Hold']`. -/
def validGoalStatuses : List PyStr :=
  [pystr "Active", pystr "Completed", pystr "Cancelled", pystr "On Hold"]

/-- `['Personal Training', 'Group Class']`. -/
def validSessionTypes : List PyStr :=
  [pystr "Personal Training", pystr "Group Class"]

/-- `['Low', 'Medium', 'High', 'Critical']`. -/
def validPriorities : List PyStr :=
  [pystr "Low", pystr "Medium", pystr "High", pystr "Critical"]

/-- `['Open', 'In Progress', 'Resolved', 'Closed']`. -/
def validIssueStatuses : List PyStr :=
  [pystr "Open", pystr "In Progress", pystr "Resolved", pystr "Closed"]

/-- Date-of-birth block of `register_member`
(`member_functions.py` lines 51-58): not in the future, age in `[13, 120]`
with `age = (today - dob).days // 365` (Python floor division). -/
def registerDobErr (today : Int) : Option Int → Option Err
  | none => none
  | some dob =>
    if dob > today then some .dobInFuture
    else if (today - dob).fdiv 365 > 120 then some .dobTooOld
    else if (today - dob).fdiv 365 < 13 then some .dobTooYoung
    else none

/-- Pure input validation of `register_member`
(`member_functions.py` lines 31-67), before any store access, in source
order. -/
def registerInputErr (today : Int) (first_name last_name email : PyStr)
    (date_of_birth : Option Int) (gender : Option PyStr)
    (membership_status : PyStr) : Option Err :=
  if pyFalsy first_name || pyFalsy (pyStrip first_name) then some .firstNameRequired
  else if pyFalsy last_name || pyFalsy (pyStrip last_name) then some .lastNameRequired
  else if pyFalsy email || pyFalsy (pyStrip email) then some .emailRequired
  else if !(email.contains '@') || !((afterLastAt email).contains '.') then
    some .emailInvalidFormat
  else if first_name.length > 50 then some .firstNameTooLong
  else if last_name.length > 50 then some .lastNameTooLong
  else if email.length > 100 then some .emailTooLong
  else match registerDobErr today date_of_birth with
  | some e => some e
  | none =>
    if pyTruthyStr gender && !(validGenders.contains (pyUpper (strVal gender))) then
      some .genderInvalid
    else if !(validMembershipStatuses.contains membership_status) then
      some .membershipStatusInvalid
    else none

/-- The `Member` row built by `register_member` (lines 76-86). -/
def newMemberRecord (today : Int) (first_name last_name email : PyStr)
    (date_of_birth : Option Int) (gender : Option PyStr)
    (phone address : Option PyStr) (membership_status : PyStr)
    (st : Store) : Member :=
  { MemberID := st.nextMemberID
    FirstName := pyStrip first_name
    LastName := pyStrip last_name
    Email := pyLower (pyStrip email)
    DateOfBirth := date_of_birth
    Gender := if pyTruthyStr gender then some (pyUpper (strVal gender)) else none
    Phone := if pyTruthyStr phone then some (pyStrip (strVal phone)) else none
    Address := if pyTruthyStr address then some (pyStrip (strVal address)) else none
    JoinDate := some today
    MembershipStatus := membership_status }

/-- `register_member` (`app/member_functions.py` lines 12-100).
The duplicate pre-check compares the raw `email` argument, while the stored
value is `email.strip().lower()`; the DB uniqueness constraint on
`Member.Email` fires at commit against the stored value (`IntegrityError`,
converted to the same `ValueError` message). -/
def registerMember (today : Int) (first_name last_name email : PyStr)
    (date_of_birth : Option Int) (gender : Option PyStr)
    (phone address : Option PyStr) (membership_status : PyStr)
    (st : Store) : Res Member :=
  match registerInputErr today first_name last_name email date_of_birth gender
      membership_status with
  | some e => (st, .error e)
  | none =>
    if st.members.any (fun x => x.Email == email) then
      (st, .error (.emailExists email))
    else if st.members.any (fun x => x.Email == pyLower (pyStrip email)) then
      (st, .error (.emailExists email))
    else
      ({ st with
          members := st.members ++ [newMemberRecord today first_name last_name email
            date_of_birth gender phone address membership_status st]
          nextMemberID := st.nextMemberID + 1 },
        .ok (newMemberRecord today first_name last_name email date_of_birth gender
          phone address membership_status st))

/-- `update_profile` first-name block (`member_functions.py` lines 132-137). -/
def upStepFirst (m : Member) : Option PyStr → Except Err Member
  | none => .ok m
  | some v =>
    if pyFalsy (pyStrip v) then .error .firstNameEmpty
    else if v.length > 50 then .error .firstNameTooLong
    else .ok { m with FirstName := pyStrip v }

/-- `update_profile` last-name block (lines 139-144). -/
def upStepLast (m : Member) : Option PyStr → Except Err Member
  | none => .ok m
  | some v =>
    if pyFalsy (pyStrip v) then .error .lastNameEmpty
    else if v.length > 50 then .error .lastNameTooLong
    else .ok { m with LastName := pyStrip v }

/-- `update_profile` phone block (lines 146-149): `if phone and len(phone) > 20`. -/
def upStepPhone (m : Member) : Option PyStr → Except Err Member
  | none => .ok m
  | some v =>
    if !v.isEmpty && v.length > 20 then .error .phoneTooLong
    else .ok { m with Phone := if v.isEmpty then none else some (pyStrip v) }

/-- `update_profile` address block (lines 151-154). -/
def upStepAddress (m : Member) : Option PyStr → Except Err Member
  | none => .ok m
  | some v =>
    if !v.isEmpty && v.length > 200 then .error .addressTooLong
    else .ok { m with Address := if v.isEmpty then none else some (pyStrip v) }

/-- `update_profile` date-of-birth block (lines 156-162). -/
def upStepDob (today : Int) (m : Member) : Option Int → Except Err Member
  | none => .ok m
  | some d =>
    if d > today then .error .dobInFuture
    else if (today - d).fdiv 365 > 120 ∨ (today - d).fdiv 365 < 13 then .error .dobInvalid
    else .ok { m with DateOfBirth := some d }

/-- `update_profile` gender block (lines 164-167). -/
def upStepGender (m : Member) : Option PyStr → Except Err Member
  | none => .ok m
  | some v =>
    if !v.isEmpty && !(validGenders.contains (pyUpper v)) then .error .genderInvalid
    else .ok { m with Gender := if v.isEmpty then none else some (pyUpper v) }

/-- `update_profile` (`app/member_functions.py` lines 103-175).
Each field block validates and then immediately assigns the ORM attribute,
so a failure in a later block leaves the assignments of earlier blocks in
the session (the code raises without rolling back): the store returned with
such an error carries the partial mutation. -/
def updateProfile (today : Int) (member_id : Int)
    (first_name last_name phone address : Option PyStr)
    (date_of_birth : Option Int) (gender : Option PyStr) (st : Store) : Res Member :=
  if member_id ≤ 0 then (st, .error .memberIdInvalid)
  else if first_name = none ∧ last_name = none ∧ phone = none ∧ address = none ∧
      date_of_birth = none ∧ gender = none then
    (st, .error .noFieldProvided)
  else match st.members.find? (fun x => decide (x.MemberID = member_id)) with
  | none => (st, .error (.memberNotFound member_id))
  | some m =>
    match upStepFirst m first_name with
    | .error e => (st, .error e)
    | .ok m1 =>
    match upStepLast m1 last_name with
    | .error e => (setMember st member_id m1, .error e)
    | .ok m2 =>
    match upStepPhone m2 phone with
    | .error e => (setMember st member_id m2, .error e)
    | .ok m3 =>
    match upStepAddress m3 address with
    | .error e => (setMember st member_id m3, .error e)
    | .ok m4 =>
    match upStepDob today m4 date_of_birth with
    | .error e => (setMember st member_id m4, .error e)
    | .ok m5 =>
    match upStepGender m5 gender with
    | .error e => (setMember st member_id m5, .error e)
    | .ok m6 => (setMember st member_id m6, .ok m6)

/-- Pure input validation of `add_fitness_goal`
(`member_functions.py` lines 192-223), in source order. -/
def goalInputErr (today : Int) (member_id : Int) (goal_type : PyStr)
    (target_body_weight target_body_fat : Option ℚ) (target_date : Option Int)
    (goal_status : PyStr) : Option Err :=
  if member_id ≤ 0 then some .memberIdInvalid
  else if pyFalsy goal_type || pyFalsy (pyStrip goal_type) then some .goalTypeRequired
  else if goal_type.length > 50 then some .goalTypeTooLong
  else if (target_body_weight.any fun w => decide (w ≤ 0)) then
    some .targetWeightNonPositive
  else if (target_body_weight.any fun w => decide (w > 1000)) then
    some .targetWeightTooLarge
  else if (target_body_fat.any fun f => decide (f < 0 ∨ f > 100)) then
    some .targetFatOutOfRange
  else if (target_date.any fun d => decide (d < today)) then
    some .targetDateInPast
  else if (target_date.any fun d => decide (d - today > 3650)) then
    some .targetDateTooFar
  else if !(validGoalStatuses.contains goal_status) then some .goalStatusInvalid
  else none

/-- `add_fitness_goal` (`app/member_functions.py` lines 178-254). -/
def addFitnessGoal (today : Int) (member_id : Int) (goal_type : PyStr)
    (target_body_weight target_body_fat : Option ℚ) (target_date : Option Int)
    (goal_status : PyStr) (notes : Option PyStr) (st : Store) : Res FitnessGoal :=
  match goalInputErr today member_id goal_type target_body_weight target_body_fat
      target_date goal_status with
  | some e => (st, .error e)
  | none =>
  if !(st.members.any fun x => x.MemberID == member_id) then
    (st, .error (.memberNotFound member_id))
  else if target_body_weight = none ∧ target_body_fat = none then
    (st, .error .noTargetProvided)
  else
    let g : FitnessGoal :=
      { GoalID := st.nextGoalID
        MemberID := member_id
        GoalType := pyStrip goal_type
        TargetBodyWeight := target_body_weight
        TargetBodyFatPercentage := target_body_fat
        SetDate := some today
        TargetDate := target_date
        GoalStatus := goal_status
        Notes := if pyTruthyStr notes then some (pyStrip (strVal notes)) else none }
    ({ st with fitness_goals := st.fitness_goals ++ [g], nextGoalID := st.nextGoalID + 1 }, .ok g)

/-- Pure input validation of `log_health_metric`
(`member_functions.py` lines 272-307), in source order. -/
def metricInputErr (today : Int) (member_id : Int) (recorded_date : Int)
    (height weight body_fat_percentage : Option ℚ)
    (resting_heart_rate : Option Int) : Option Err :=
  if member_id ≤ 0 then some .memberIdInvalid
  else if recorded_date > today then some .recordedDateInFuture
  else if today - recorded_date > 36500 then some .recordedDateTooOld
  else if height = none ∧ weight = none ∧ body_fat_percentage = none ∧
      resting_heart_rate = none then
    some .noMetricProvided
  else if (height.any fun h => decide (h ≤ 0)) then some .heightNonPositive
  else if (height.any fun h => decide (h > 300)) then some .heightTooLarge
  else if (weight.any fun w => decide (w ≤ 0)) then some .weightNonPositive
  else if (weight.any fun w => decide (w > 1000)) then some .weightTooLarge
  else if (body_fat_percentage.any fun f => decide (f < 0 ∨ f > 100)) then
    some .bodyFatOutOfRange
  else if (resting_heart_rate.any fun r => decide (r ≤ 0)) then
    some .heartRateNonPositive
  else if (resting_heart_rate.any fun r => decide (r < 30 ∨ r > 200)) then
    some .heartRateOutOfRange
  else none

/-- `log_health_metric` (`app/member_functions.py` lines 257-333):
validation, member-existence check, then a pure `INSERT` (never an update,
preserving history). -/
def logHealthMetric (today : Int) (member_id : Int) (recorded_date : Int)
    (height weight body_fat_percentage : Option ℚ) (resting_heart_rate : Option Int)
    (notes : Option PyStr) (st : Store) : Res HealthMetric :=
  match metricInputErr today member_id recorded_date height weight
      body_fat_percentage resting_heart_rate with
  | some e => (st, .error e)
  | none =>
  if !(st.members.any fun x => x.MemberID == member_id) then
    (st, .error (.memberNotFound member_id))
  else
    let hm : HealthMetric :=
      { HealthMetricID := st.nextMetricID
        MemberID := member_id
        RecordedDate := recorded_date
        Height := height
        Weight := weight
        BodyFatPercentage := body_fat_percentage
        RestingHeartRate := resting_heart_rate
        Notes := if pyTruthyStr notes then some (pyStrip (strVal notes)) else none }
    ({ st with health_metrics := st.health_metrics ++ [hm],
               nextMetricID := st.nextMetricID + 1 }, .ok hm)

/-! ## `schedule_pt_session` (`app/member_functions.py` lines 336-481) -/

/-- The strict half-open overlap filter of the trainer-conflict query
(`member_functions.py` lines 411-416): same trainer, same date,
`StartTime < end_time` and `EndTime > start_time`. -/
abbrev trainerOverlap (trainer_id session_date : Int) (start_time end_time : Nat)
    (x : PersonalTrainingSession) : Prop :=
  x.TrainerID = trainer_id ∧ x.SessionDate = session_date ∧
    x.StartTime < end_time ∧ x.EndTime > start_time

/-- `.first()` of the trainer-conflict query. -/
def trainerScan (st : Store) (trainer_id session_date : Int) (start_time end_time : Nat) :
    Option PersonalTrainingSession :=
  st.sessions.find? fun x => decide (trainerOverlap trainer_id session_date start_time end_time x)

/-- Room-conflict filter of `schedule_pt_session` (lines 426-431); a SQL
`RoomID == room_id` comparison is false on a NULL `RoomID`. -/
abbrev roomOverlap (room_id session_date : Int) (start_time end_time : Nat)
    (x : PersonalTrainingSession) : Prop :=
  x.RoomID = some room_id ∧ x.SessionDate = session_date ∧
    x.StartTime < end_time ∧ x.EndTime > start_time

/-- `.first()` of the room-conflict query of `schedule_pt_session`. -/
def roomScan (st : Store) (room_id session_date : Int) (start_time end_time : Nat) :
    Option PersonalTrainingSession :=
  st.sessions.find? fun x => decide (roomOverlap room_id session_date start_time end_time x)

/-- Member-conflict filter of `schedule_pt_session` (lines 440-445). -/
abbrev memberOverlap (member_id session_date : Int) (start_time end_time : Nat)
    (x : PersonalTrainingSession) : Prop :=
  x.MemberID = member_id ∧ x.SessionDate = session_date ∧
    x.StartTime < end_time ∧ x.EndTime > start_time

/-- `.first()` of the member-conflict query of `schedule_pt_session`. -/
def memberScan (st : Store) (member_id session_date : Int) (start_time end_time : Nat) :
    Option PersonalTrainingSession :=
  st.sessions.find? fun x => decide (memberOverlap member_id session_date start_time end_time x)

/-- Pure input validation of `schedule_pt_session` before any store access
(`member_functions.py` lines 353-389), in source order. -/
def scheduleInputErr (today : Int) (member_id trainer_id : Int) (session_date : Int)
    (start_time end_time : Nat) (room_id : Option Int) (session_type : PyStr)
    (max_capacity : Option Int) : Option Err :=
  if member_id ≤ 0 then some .memberIdInvalid
  else if trainer_id ≤ 0 then some .trainerIdInvalid
  else if (room_id.any fun r => decide (r ≤ 0)) then some .roomIdInvalid
  else if session_date < today then some .sessionDateInPast
  else if session_date - today > 365 then some .sessionDateTooFar
  else if start_time ≥ end_time then some .startNotBeforeEnd
  else if end_time - start_time < 900 then some .durationTooShort
  else if end_time - start_time > 28800 then some .durationTooLong
  else if !(validSessionTypes.contains session_type) then some .sessionTypeInvalid
  else if session_type = pystr "Group Class" ∧ (max_capacity = none ∨ intVal max_capacity ≤ 0) then
    some .groupCapacityRequired
  else if session_type = pystr "Group Class" ∧ intVal max_capacity > 100 then
    some .groupCapacityTooHigh
  else none

/-- Room-existence and group-capacity-vs-room block of `schedule_pt_session`
(lines 400-408), guarded by `if room_id:` (Python truthiness). -/
def scheduleRoomErr (st : Store) (room_id : Option Int) (session_type : PyStr)
    (max_capacity : Option Int) : Option Err :=
  if pyTruthyInt room_id then
    match st.rooms.find? (fun x => decide (x.RoomID = intVal room_id)) with
    | none => some (.roomNotFound (intVal room_id))
    | some room =>
      if session_type = pystr "Group Class" ∧ pyTruthyInt max_capacity ∧
          pyTruthyInt room.RoomCapacity then
        if intVal max_capacity > intVal room.RoomCapacity then
          some (.capacityExceedsRoom (intVal max_capacity) (intVal room.RoomCapacity))
        else none
      else none
  else none

/-- `schedule_pt_session` (`app/member_functions.py` lines 336-481).
`DurationMinutes` is `int(total_seconds()/60)` when the caller does not
supply `duration_minutes`, and the caller's value verbatim when they do. -/
def schedulePTSession (today : Int) (member_id trainer_id : Int) (session_date : Int)
    (start_time end_time : Nat) (room_id : Option Int) (session_type : PyStr)
    (duration_minutes max_capacity : Option Int) (notes : Option PyStr)
    (st : Store) : Res PersonalTrainingSession :=
  match scheduleInputErr today member_id trainer_id session_date start_time end_time
      room_id session_type max_capacity with
  | some e => (st, .error e)
  | none =>
    if st.members.any (fun x => x.MemberID == member_id) then
      if st.trainers.any (fun x => x.TrainerID == trainer_id) then
        match scheduleRoomErr st room_id session_type max_capacity with
        | some e => (st, .error e)
        | none =>
          match trainerScan st trainer_id session_date start_time end_time with
          | some c => (st, .error (.trainerConflict c.SessionID c.StartTime c.EndTime))
          | none =>
            match (if pyTruthyInt room_id then
                roomScan st (intVal room_id) session_date start_time end_time
              else none) with
            | some c => (st, .error (.roomBooked c.SessionID c.StartTime c.EndTime))
            | none =>
              match memberScan st member_id session_date start_time end_time with
              | some c => (st, .error (.memberBusy c.SessionID))
              | none =>
                let dm : Int :=
                  match duration_minutes with
                  | some d => d
                  | none => ((end_time - start_time) / 60 : Nat)
                let s : PersonalTrainingSession :=
                  { SessionID := st.nextSessionID
                    MemberID := member_id
                    TrainerID := trainer_id
                    RoomID := room_id
                    SessionDate := session_date
                    StartTime := start_time
                    EndTime := end_time
                    DurationMinutes := some dm
                    SessionType := session_type
                    MaxCapacity := max_capacity
                    CurrentEnrollment := 0
                    Notes := if pyTruthyStr notes then some (pyStrip (strVal notes)) else none }
                ({ st with sessions := st.sessions ++ [s],
                           nextSessionID := st.nextSessionID + 1 }, .ok s)
      else (st, .error (.trainerNotFound trainer_id))
    else (st, .error (.memberNotFound member_id))

/-! ## Admin operations (`app/admin_functions.py`) -/

/-- Room-conflict filter of `assign_room_booking`
(`admin_functions.py` lines 56-62): same room and date, strict half-open
overlap, and the session being modified excluded by its own key
(`SessionID != session_id`). -/
abbrev assignRoomConflict (room_id : Int) (s : PersonalTrainingSession) (session_id : Int)
    (x : PersonalTrainingSession) : Prop :=
  x.RoomID = some room_id ∧ x.SessionDate = s.SessionDate ∧
    x.StartTime < s.EndTime ∧ x.EndTime > s.StartTime ∧ x.SessionID ≠ session_id

/-- `.first()` of the room-conflict query of `assign_room_booking`. -/
def assignRoomScan (st : Store) (room_id : Int) (s : PersonalTrainingSession)
    (session_id : Int) : Option PersonalTrainingSession :=
  st.sessions.find? fun x => decide (assignRoomConflict room_id s session_id x)

/-- `assign_room_booking` (`app/admin_functions.py` lines 12-79). -/
def assignRoomBooking (today : Int) (session_id room_id : Int) (st : Store) :
    Res PersonalTrainingSession :=
  if session_id ≤ 0 then (st, .error .sessionIdInvalid)
  else if room_id ≤ 0 then (st, .error .roomIdInvalid)
  else match st.sessions.find? (fun x => decide (x.SessionID = session_id)) with
  | none => (st, .error (.sessionNotFound session_id))
  | some s =>
    if s.SessionDate < today then (st, .error .pastSessionRoomAssign)
    else match st.rooms.find? (fun x => decide (x.RoomID = room_id)) with
    | none => (st, .error (.roomNotFound room_id))
    | some room =>
      if s.RoomID = some room_id then (st, .error (.roomAlreadyAssigned room_id))
      else if s.SessionType = pystr "Group Class" ∧ pyTruthyInt s.MaxCapacity ∧
          pyTruthyInt room.RoomCapacity ∧ intVal s.MaxCapacity > intVal room.RoomCapacity then
        (st, .error (.capacityExceedsRoomAssign (intVal s.MaxCapacity) (intVal room.RoomCapacity)))
      else match assignRoomScan st room_id s session_id with
      | some c => (st, .error (.roomBookedAssign c.SessionID c.StartTime c.SessionDate))
      | none =>
        let s' := { s with RoomID := some room_id }
        (setSession st session_id s', .ok s')

/-- Pure input validation of `log_maintenance_issue`
(`admin_functions.py` lines 95-121), in source order. -/
def maintInputErr (today : Int) (room_id admin_id : Int) (issue_description : PyStr)
    (equipment_name : Option PyStr) (priority : PyStr)
    (reported_date : Option Int) : Option Err :=
  if room_id ≤ 0 then some .roomIdInvalid
  else if admin_id ≤ 0 then some .adminIdInvalid
  else if pyFalsy issue_description || pyFalsy (pyStrip issue_description) then
    some .descriptionRequired
  else if issue_description.length > 1000 then some .descriptionTooLong
  else if pyTruthyStr equipment_name && decide ((strVal equipment_name).length > 100) then
    some .equipmentNameTooLong
  else if !(validPriorities.contains priority) then some .priorityInvalid
  else if (reported_date.any fun d => decide (d > today)) then some .reportedDateInFuture
  else if (reported_date.any fun d => decide (today - d > 3650)) then
    some .reportedDateTooOld
  else none

/-- `log_maintenance_issue` (`app/admin_functions.py` lines 82-152). -/
def logMaintenanceIssue (today : Int) (room_id admin_id : Int) (issue_description : PyStr)
    (equipment_name : Option PyStr) (priority : PyStr) (reported_date : Option Int)
    (st : Store) : Res MaintenanceIssue :=
  match maintInputErr today room_id admin_id issue_description equipment_name
      priority reported_date with
  | some e => (st, .error e)
  | none =>
  if !(st.rooms.any fun x => x.RoomID == room_id) then
    (st, .error (.roomNotFound room_id))
  else if !(st.admins.any fun x => x.AdminID == admin_id) then
    (st, .error (.adminNotFound admin_id))
  else
    let i : MaintenanceIssue :=
      { IssueID := st.nextIssueID
        RoomID := room_id
        AdminID := admin_id
        IssueDescription := pyStrip issue_description
        EquipmentName := if pyTruthyStr equipment_name then
            some (pyStrip (strVal equipment_name)) else none
        ReportedDate := reported_date.getD today
        Priority := priority
        Status := pystr "Open" }
    ({ st with issues := st.issues ++ [i], nextIssueID := st.nextIssueID + 1 }, .ok i)

/-- The guard chain of `update_maintenance_status` against the issue found
(`admin_functions.py` lines 178-211), in source order. -/
def issueUpdateErr (today : Int) (issue : MaintenanceIssue) (status : Option PyStr)
    (assigned_repair_date resolution_date : Option Int)
    (resolution_notes : Option PyStr) : Option Err :=
  if pyTruthyStr status && !(validIssueStatuses.contains (strVal status)) then
    some .statusInvalid
  else if pyTruthyStr status && decide (issue.Status = pystr "Closed") &&
      !(strVal status == pystr "Closed") then
    some .closedIssueImmutable
  else if pyTruthyStr status && decide (issue.Status = pystr "Resolved") &&
      !([pystr "Resolved", pystr "Closed"].contains (strVal status)) then
    some .resolvedOnlyClose
  else if (assigned_repair_date.any fun d => decide (d < issue.ReportedDate)) then
    some .repairBeforeReported
  else if (assigned_repair_date.any fun d => decide (d > today + 364)) then
    some .repairTooFar
  else if resolution_date.isSome &&
      !([pystr "Resolved", pystr "Closed"].contains issue.Status) then
    some .resolutionNeedsResolvedStatus
  else if (resolution_date.any fun d => decide (d < issue.ReportedDate)) then
    some .resolutionBeforeReported
  else if (resolution_date.any fun d => decide (d > today)) then
    some .resolutionInFuture
  else if assigned_repair_date.isSome && resolution_date.isSome &&
      decide (intVal resolution_date < intVal assigned_repair_date) then
    some .resolutionBeforeRepair
  else if pyTruthyStr resolution_notes && decide ((strVal resolution_notes).length > 1000) then
    some .resolutionNotesTooLong
  else none

/-- `update_maintenance_status` (`app/admin_functions.py` lines 155-230).
The at-least-one-field guard tests `is None` exactly; the status guards and
the `resolution_date` guards test the issue's *current* (pre-update)
status, and the `resolution_date ≥ assigned_repair_date` guard consults
only the `assigned_repair_date` argument of this call, never the
`AssignedRepairDate` already stored on the issue. -/
def updateMaintenanceStatus (today : Int) (issue_id : Int) (status : Option PyStr)
    (assigned_repair_date resolution_date : Option Int) (resolution_notes : Option PyStr)
    (st : Store) : Res MaintenanceIssue :=
  if issue_id ≤ 0 then (st, .error .issueIdInvalid)
  else if status = none ∧ assigned_repair_date = none ∧ resolution_date = none ∧
      resolution_notes = none then
    (st, .error .noFieldProvided)
  else match st.issues.find? (fun x => decide (x.IssueID = issue_id)) with
  | none => (st, .error (.issueNotFound issue_id))
  | some issue =>
    match issueUpdateErr today issue status assigned_repair_date resolution_date
        resolution_notes with
    | some e => (st, .error e)
    | none =>
      let i' : MaintenanceIssue := { issue with
        Status := if pyTruthyStr status then strVal status else issue.Status
        AssignedRepairDate := if assigned_repair_date.isSome then assigned_repair_date
          else issue.AssignedRepairDate
        ResolutionDate := if resolution_date.isSome then resolution_date
          else issue.ResolutionDate
        ResolutionNotes := if pyTruthyStr resolution_notes then
          some (pyStrip (strVal resolution_notes)) else issue.ResolutionNotes }
      (setIssue st issue_id i', .ok i')

/-- Pure input validation of `create_invoice`
(`admin_functions.py` lines 245-286), in source order. -/
def invoiceInputErr (today : Int) (payer_id : Int) (invoice_number : PyStr)
    (invoice_date due_date : Int) (amount : ℚ) (service_description : PyStr)
    (session_id : Option Int) (payment_method : Option PyStr) : Option Err :=
  if payer_id ≤ 0 then some .payerIdInvalid
  else if pyFalsy invoice_number || pyFalsy (pyStrip invoice_number) then
    some .invoiceNumberRequired
  else if invoice_number.length > 50 then some .invoiceNumberTooLong
  else if pyFalsy service_description || pyFalsy (pyStrip service_description) then
    some .serviceDescriptionRequired
  else if service_description.length > 500 then some .serviceDescriptionTooLong
  else if (session_id.any fun s => decide (s ≤ 0)) then some .sessionIdInvalid
  else if invoice_date > today then some .invoiceDateInFuture
  else if today - invoice_date > 3650 then some .invoiceDateTooOld
  else if due_date < invoice_date then some .dueBeforeInvoiceDate
  else if due_date - invoice_date > 365 then some .dueDateTooFar
  else if amount ≤ 0 then some .amountNonPositive
  else if amount > 1000000 then some .amountTooLarge
  else if pyTruthyStr payment_method && decide ((strVal payment_method).length > 50) then
    some .paymentMethodTooLong
  else none

/-- The `Invoice` row built by `create_invoice` (lines 312-322). -/
def newInvoiceRecord (today : Int) (payer_id : Int) (invoice_number : PyStr)
    (invoice_date due_date : Int) (amount : ℚ) (service_description : PyStr)
    (session_id : Option Int) (payment_method : Option PyStr) (st : Store) : Invoice :=
  { InvoiceID := st.nextInvoiceID
    InvoiceNumber := pyStrip invoice_number
    PayerID := payer_id
    SessionID := session_id
    InvoiceDate := invoice_date
    DueDate := due_date
    Amount := pyRound2 amount
    PaymentMethod := if pyTruthyStr payment_method then
        some (pyStrip (strVal payment_method)) else none
    PaymentStatus := pystr "Pending"
    ServiceDescription := some (pyStrip service_description)
    PaidDate := none }

/-- See `createInvoice`. -/
def createInvoiceRest (today : Int) (payer_id : Int) (invoice_number : PyStr)
    (invoice_date due_date : Int) (amount : ℚ) (service_description : PyStr)
    (session_id : Option Int) (payment_method : Option PyStr) (st : Store) : Res Invoice :=
  if !(st.members.any fun x => x.MemberID == payer_id) then
    (st, .error (.memberNotFound payer_id))
  else
    match (if pyTruthyInt session_id then
        match st.sessions.find? (fun x => decide (x.SessionID = intVal session_id)) with
        | none => some (.sessionNotFound (intVal session_id))
        | some s => if s.MemberID ≠ payer_id then
            some (.sessionNotOwned (intVal session_id) payer_id)
          else none
      else none : Option Err) with
    | some e => (st, .error e)
    | none =>
      if st.invoices.any (fun x => x.InvoiceNumber == invoice_number) then
        (st, .error (.invoiceNumberExists invoice_number))
      else if st.invoices.any (fun x => x.InvoiceNumber == pyStrip invoice_number) then
        (st, .error (.invoiceNumberExists invoice_number))
      else
        ({ st with
            invoices := st.invoices ++ [newInvoiceRecord today payer_id invoice_number
              invoice_date due_date amount service_description session_id payment_method st]
            nextInvoiceID := st.nextInvoiceID + 1 },
          .ok (newInvoiceRecord today payer_id invoice_number invoice_date due_date
            amount service_description session_id payment_method st))

/-- `create_invoice` (`app/admin_functions.py` lines 233-333).  The
duplicate pre-check compares the raw `invoice_number`, the stored value is
`invoice_number.strip()`, and the DB uniqueness constraint on
`Invoice.InvoiceNumber` fires at commit against the stored value. -/
def createInvoice (today : Int) (payer_id : Int) (invoice_number : PyStr)
    (invoice_date due_date : Int) (amount : ℚ) (service_description : PyStr)
    (session_id : Option Int) (payment_method : Option PyStr) (st : Store) : Res Invoice :=
  match invoiceInputErr today payer_id invoice_number invoice_date due_date amount
      service_description session_id payment_method with
  | some e => (st, .error e)
  | none =>
    createInvoiceRest today payer_id invoice_number invoice_date due_date amount
      service_description session_id payment_method st

/-- `record_payment` (`app/admin_functions.py` lines 336-383).
`PaidDate` becomes `paid_date or date.today()`. -/
def recordPayment (today : Int) (invoice_id : Int) (payment_method : PyStr)
    (paid_date : Option Int) (st : Store) : Res Invoice :=
  if invoice_id ≤ 0 then (st, .error .invoiceIdInvalid)
  else if pyFalsy payment_method || pyFalsy (pyStrip payment_method) then
    (st, .error .paymentMethodRequired)
  else if payment_method.length > 50 then (st, .error .paymentMethodTooLong)
  else if (paid_date.any fun d => decide (d > today)) then (st, .error .paidDateInFuture)
  else match st.invoices.find? (fun x => decide (x.InvoiceID = invoice_id)) with
  | none => (st, .error (.invoiceNotFound invoice_id))
  | some inv =>
    if inv.PaymentStatus = pystr "Paid" then (st, .error (.alreadyPaid invoice_id))
    else if (paid_date.any fun d => decide (d < inv.InvoiceDate)) then
      (st, .error .paidBeforeInvoiceDate)
    else
      let inv' := { inv with
        PaymentStatus := pystr "Paid"
        PaymentMethod := some (pyStrip payment_method)
        PaidDate := some (paid_date.getD today) }
      (setInvoice st invoice_id inv', .ok inv')

/-! ## Sequences of `log_health_metric` calls -/

/-- The arguments of one `log_health_metric` call. -/
structure LogCall where
  today : Int
  member_id : Int
  recorded_date : Int
  height : Option ℚ := none
  weight : Option ℚ := none
  body_fat_percentage : Option ℚ := none
  resting_heart_rate : Option Int := none
  notes : Option PyStr := none
deriving DecidableEq, Repr

/-- Perform one `log_health_metric` call. -/
def runLog (c : LogCall) (st : Store) : Res HealthMetric :=
  logHealthMetric c.today c.member_id c.recorded_date c.height c.weight
    c.body_fat_percentage c.resting_heart_rate c.notes st

/-- The store after a sequence of `log_health_metric` calls. -/
def runLogs : List LogCall → Store → Store
  | [], st => st
  | c :: cs, st => runLogs cs (runLog c st).1

/-- Whether every call of the sequence succeeds. -/
def logsOk : List LogCall → Store → Bool
  | [], _ => true
  | c :: cs, st =>
    match runLog c st with
    | (st', .ok _) => logsOk cs st'
    | (_, .error _) => false

/-! ## Concrete records and stores used by witnesses and counterexamples -/

/-- A registered member (id 1). -/
def memberU : Member :=
  { MemberID := 1, FirstName := pystr "Alice", LastName := pystr "Smith",
    Email := pystr "alice@x.com" }

/-- A registered member (id 2). -/
def memberV : Member :=
  { MemberID := 2, FirstName := pystr "Bea", LastName := pystr "Jones",
    Email := pystr "bea@x.com" }

/-- A trainer (id 1). -/
def trainerT : Trainer :=
  { TrainerID := 1, FirstName := pystr "Tom", LastName := pystr "Coach",
    Email := pystr "tom@x.com" }

/-- Rooms 1, 2 and 3, capacity 10 each. -/
def roomR1 : Room := { RoomID := 1, RoomNumber := pystr "101", RoomCapacity := some 10 }

/-- See `roomR1`. -/
def roomR2 : Room := { RoomID := 2, RoomNumber := pystr "102", RoomCapacity := some 10 }

/-- See `roomR1`. -/
def roomR3 : Room := { RoomID := 3, RoomNumber := pystr "103", RoomCapacity := some 10 }

/-- An admin staff record (id 1). -/
def adminA : AdminStaff :=
  { AdminID := 1, FirstName := pystr "Ann", LastName := pystr "Boss",
    Email := pystr "ann@x.com" }

/-- Session 1: trainer 1 and member 1 in room 1 on day 10, 10:00-11:00. -/
def sessionS : PersonalTrainingSession :=
  { SessionID := 1, TrainerID := 1, MemberID := 1, RoomID := some 1,
    SessionDate := 10, StartTime := 36000, EndTime := 39600,
    DurationMinutes := some 60 }

/-- Session 2: trainer 2 and member 2 in room 2 on day 10, 10:00-11:00. -/
def sessionS2 : PersonalTrainingSession :=
  { SessionID := 2, TrainerID := 2, MemberID := 2, RoomID := some 2,
    SessionDate := 10, StartTime := 36000, EndTime := 39600,
    DurationMinutes := some 60 }

/-- Store for the scheduling scenarios: members 1-2, trainer 1, rooms 1-3,
session 1 booked. -/
def storeSched : Store :=
  { members := [memberU, memberV], trainers := [trainerT],
    rooms := [roomR1, roomR2, roomR3], sessions := [sessionS],
    nextMemberID := 3, nextSessionID := 2 }

/-- Store for the room-assignment scenarios: sessions 1 and 2 as above. -/
def storeAssign : Store :=
  { members := [memberU, memberV], trainers := [trainerT],
    rooms := [roomR1, roomR2, roomR3], sessions := [sessionS, sessionS2],
    nextMemberID := 3, nextSessionID := 3 }

/-- Store with only member 1, for registration and profile scenarios. -/
def storeReg : Store := { members := [memberU], nextMemberID := 2 }

/-- Maintenance issue 1, reported on day 0, status `In Progress`. -/
def issueIP : MaintenanceIssue :=
  { IssueID := 1, RoomID := 1, AdminID := 1,
    IssueDescription := pystr "Broken treadmill", ReportedDate := 0,
    Status := pystr "In Progress" }

/-- Maintenance issue 2, reported on day 0, status `Resolved`, with an
assigned repair date already stored on the issue (day 5). -/
def issueRes : MaintenanceIssue :=
  { IssueID := 2, RoomID := 1, AdminID := 1,
    IssueDescription := pystr "Flickering light", ReportedDate := 0,
    Status := pystr "Resolved", AssignedRepairDate := some 5 }

/-- Maintenance issue 3, status `Closed`. -/
def issueCl : MaintenanceIssue :=
  { IssueID := 3, RoomID := 1, AdminID := 1,
    IssueDescription := pystr "Cracked mirror", ReportedDate := 0,
    Status := pystr "Closed" }

/-- Store for the maintenance scenarios. -/
def storeIssues : Store :=
  { rooms := [roomR1], admins := [adminA], issues := [issueIP, issueRes, issueCl],
    nextIssueID := 4 }

/-- A pending invoice (id 1) dated day 5. -/
def invoiceP : Invoice :=
  { InvoiceID := 1, InvoiceNumber := pystr "INV-1", PayerID := 1,
    InvoiceDate := 5, DueDate := 15, Amount := 100 }

/-- Store for the payment scenarios. -/
def storeInv : Store := { members := [memberU], invoices := [invoiceP], nextInvoiceID := 2 }

/-- A concrete `log_health_metric` call for member 1 (height 180). -/
def logC1 : LogCall := { today := 10, member_id := 1, recorded_date := 5, height := some 180 }

/-- A concrete `log_health_metric` call for member 1 (weight 80). -/
def logC2 : LogCall := { today := 10, member_id := 1, recorded_date := 6, weight := some 80 }

/-- `invoiceP` after `record_payment` on day 10 by cash. -/
def invoicePPaid : Invoice :=
  { invoiceP with
    PaymentStatus := pystr "Paid"
    PaymentMethod := some (pystr "Cash")
    PaidDate := some 10 }

/-! ## Theorems -/

/-- A successful `log_health_metric` appends exactly one row carrying the
recorded values. -/
theorem logHealthMetric_ok_shape (today mid rd : Int) (h w bf : Option ℚ)
    (rhr : Option Int) (n : Option PyStr) (st st' : Store) (hm : HealthMetric)
    (hc : logHealthMetric today mid rd h w bf rhr n st = (st', Except.ok hm)) :
    st'.health_metrics = st.health_metrics ++ [hm] ∧ hm.MemberID = mid ∧
      hm.RecordedDate = rd ∧ hm.Height = h ∧ hm.Weight = w ∧
      hm.BodyFatPercentage = bf ∧ hm.RestingHeartRate = rhr := by
  unfold logHealthMetric at hc
  repeat' split at hc
  all_goals simp_all
  all_goals simp [← hc.1, ← hc.2]

/-- A failing `log_health_metric` leaves the store unchanged. -/
theorem logHealthMetric_err_state (today mid rd : Int) (h w bf : Option ℚ)
    (rhr : Option Int) (n : Option PyStr) (st st' : Store) (e : Err)
    (hc : logHealthMetric today mid rd h w bf rhr n st = (st', Except.error e)) :
    st' = st := by
  unfold logHealthMetric at hc
  repeat' split at hc
  all_goals simp_all

/-- `register_member` never touches the `HealthMetric` table. -/
theorem registerMember_preserves_metrics (today : Int) (fn ln em : PyStr)
    (dob : Option Int) (g ph ad : Option PyStr) (ms : PyStr) (st : Store) :
    (registerMember today fn ln em dob g ph ad ms st).1.health_metrics
      = st.health_metrics := by
  unfold registerMember
  repeat' split
  all_goals rfl

/-- `update_profile` never touches the `HealthMetric` table. -/
theorem updateProfile_preserves_metrics (today : Int) (mid : Int)
    (fn ln ph ad : Option PyStr) (dob : Option Int) (g : Option PyStr) (st : Store) :
    (updateProfile today mid fn ln ph ad dob g st).1.health_metrics
      = st.health_metrics := by
  unfold updateProfile
  repeat' split
  all_goals rfl

/-- `add_fitness_goal` never touches the `HealthMetric` table. -/
theorem addFitnessGoal_preserves_metrics (today : Int) (mid : Int) (gt : PyStr)
    (tw tf : Option ℚ) (td : Option Int) (gs : PyStr) (n : Option PyStr) (st : Store) :
    (addFitnessGoal today mid gt tw tf td gs n st).1.health_metrics
      = st.health_metrics := by
  unfold addFitnessGoal
  repeat' split
  all_goals rfl

/-- `schedule_pt_session` never touches the `HealthMetric` table. -/
theorem schedulePTSession_preserves_metrics (today : Int) (mid tid : Int) (d : Int)
    (s e : Nat) (rid : Option Int) (ty : PyStr) (dm mc : Option Int)
    (n : Option PyStr) (st : Store) :
    (schedulePTSession today mid tid d s e rid ty dm mc n st).1.health_metrics
      = st.health_metrics := by
  unfold schedulePTSession
  repeat' split
  all_goals rfl

/-- `assign_room_booking` never touches the `HealthMetric` table. -/
theorem assignRoomBooking_preserves_metrics (today : Int) (sid rid : Int) (st : Store) :
    (assignRoomBooking today sid rid st).1.health_metrics = st.health_metrics := by
  unfold assignRoomBooking
  repeat' split
  all_goals rfl

/-- `log_maintenance_issue` never touches the `HealthMetric` table. -/
theorem logMaintenanceIssue_preserves_metrics (today : Int) (rid aid : Int)
    (desc : PyStr) (eq : Option PyStr) (pr : PyStr) (rd : Option Int) (st : Store) :
    (logMaintenanceIssue today rid aid desc eq pr rd st).1.health_metrics
      = st.health_metrics := by
  unfold logMaintenanceIssue
  repeat' split
  all_goals rfl

/-- `update_maintenance_status` never touches the `HealthMetric` table. -/
theorem updateMaintenanceStatus_preserves_metrics (today : Int) (iid : Int)
    (s : Option PyStr) (ard rd : Option Int) (rn : Option PyStr) (st : Store) :
    (updateMaintenanceStatus today iid s ard rd rn st).1.health_metrics
      = st.health_metrics := by
  unfold updateMaintenanceStatus
  repeat' split
  all_goals rfl

/-- Store stage of `create_invoice` never touches the `HealthMetric` table. -/
theorem createInvoiceRest_preserves_metrics (today : Int) (pid : Int) (no : PyStr)
    (idate ddate : Int) (am : ℚ) (sd : PyStr) (sid : Option Int)
    (pm : Option PyStr) (st : Store) :
    (createInvoiceRest today pid no idate ddate am sd sid pm st).1.health_metrics
      = st.health_metrics := by
  unfold createInvoiceRest
  repeat' split
  all_goals rfl

/-- `create_invoice` never touches the `HealthMetric` table. -/
theorem createInvoice_preserves_metrics (today : Int) (pid : Int) (no : PyStr)
    (idate ddate : Int) (am : ℚ) (sd : PyStr) (sid : Option Int)
    (pm : Option PyStr) (st : Store) :
    (createInvoice today pid no idate ddate am sd sid pm st).1.health_metrics
      = st.health_metrics := by
  unfold createInvoice
  repeat' split
  · rfl
  · exact createInvoiceRest_preserves_metrics today pid no idate ddate am sd sid pm st

/-- `record_payment` never touches the `HealthMetric` table. -/
theorem recordPayment_preserves_metrics (today : Int) (iid : Int) (pm : PyStr)
    (pd : Option Int) (st : Store) :
    (recordPayment today iid pm pd st).1.health_metrics = st.health_metrics := by
  unfold recordPayment
  repeat' split
  all_goals rfl

/-- After a sequence of successful `log_health_metric` calls, all for member
`mid`, the member's metric rows grow by exactly the number of calls. -/
theorem runLogs_filter_length (l : List LogCall) (st : Store) (mid : Int)
    (hok : logsOk l st = true) (hmem : ∀ c ∈ l, c.member_id = mid) :
    ((runLogs l st).health_metrics.filter (fun x => decide (x.MemberID = mid))).length
      = (st.health_metrics.filter (fun x => decide (x.MemberID = mid))).length
        + l.length := by
  induction l generalizing st with
  | nil => simp [runLogs]
  | cons c cs ih =>
    unfold logsOk at hok
    split at hok
    case _ st' hm heq =>
      obtain ⟨hmet, hmid, -⟩ := logHealthMetric_ok_shape c.today c.member_id
        c.recorded_date c.height c.weight c.body_fat_percentage c.resting_heart_rate
        c.notes st st' hm (by simpa [runLog] using heq)
      have hcur : (runLog c st).1 = st' := by rw [heq]
      have hmm : hm.MemberID = mid := by
        rw [hmid]; exact hmem c (List.mem_cons_self c cs)
      rw [runLogs, hcur, ih st' hok (fun x hx => hmem x (List.mem_cons_of_mem c hx)),
        hmet, List.filter_append]
      simp [hmm, List.length_append, Nat.add_assoc, Nat.add_comm 1 cs.length]
    case _ => exact absurd hok (by simp)

/-- C6: `HealthMetric` records are append-only.  A successful
`log_health_metric` appends exactly one row with the recorded values and a
failing one changes nothing; no other operation of the system ever reads,
rewrites or deletes a `HealthMetric` row; and a sequence of `N` successful
calls for a member leaves that member with exactly `N` more rows. -/
theorem healthMetric_append_only :
    (∀ today mid rd h w bf rhr n st st' hm,
      logHealthMetric today mid rd h w bf rhr n st = (st', Except.ok hm) →
        st'.health_metrics = st.health_metrics ++ [hm] ∧ hm.MemberID = mid ∧
        hm.RecordedDate = rd ∧ hm.Height = h ∧ hm.Weight = w ∧
        hm.BodyFatPercentage = bf ∧ hm.RestingHeartRate = rhr) ∧
    (∀ today mid rd h w bf rhr n st st' e,
      logHealthMetric today mid rd h w bf rhr n st = (st', Except.error e) → st' = st) ∧
    (∀ today fn ln em dob g ph ad ms st,
      (registerMember today fn ln em dob g ph ad ms st).1.health_metrics
        = st.health_metrics) ∧
    (∀ today mid fn ln ph ad dob g st,
      (updateProfile today mid fn ln ph ad dob g st).1.health_metrics
        = st.health_metrics) ∧
    (∀ today mid gt tw tf td gs n st,
      (addFitnessGoal today mid gt tw tf td gs n st).1.health_metrics
        = st.health_metrics) ∧
    (∀ today mid tid d s e rid ty dm mc n st,
      (schedulePTSession today mid tid d s e rid ty dm mc n st).1.health_metrics
        = st.health_metrics) ∧
    (∀ today sid rid st,
      (assignRoomBooking today sid rid st).1.health_metrics = st.health_metrics) ∧
    (∀ today rid aid desc eq pr rd st,
      (logMaintenanceIssue today rid aid desc eq pr rd st).1.health_metrics
        = st.health_metrics) ∧
    (∀ today iid s ard rd rn st,
      (updateMaintenanceStatus today iid s ard rd rn st).1.health_metrics
        = st.health_metrics) ∧
    (∀ today pid no idate ddate am sd sid pm st,
      (createInvoice today pid no idate ddate am sd sid pm st).1.health_metrics
        = st.health_metrics) ∧
    (∀ today iid pm pd st,
      (recordPayment today iid pm pd st).1.health_metrics = st.health_metrics) ∧
    (∀ l st mid, logsOk l st = true → (∀ c ∈ l, c.member_id = mid) →
      ((runLogs l st).health_metrics.filter (fun x => decide (x.MemberID = mid))).length
        = (st.health_metrics.filter (fun x => decide (x.MemberID = mid))).length
          + l.length) :=
  ⟨fun t m r h w bf rr n st st' hm hc =>
      logHealthMetric_ok_shape t m r h w bf rr n st st' hm hc,
   fun t m r h w bf rr n st st' e hc =>
      logHealthMetric_err_state t m r h w bf rr n st st' e hc,
   registerMember_preserves_metrics, updateProfile_preserves_metrics,
   addFitnessGoal_preserves_metrics, schedulePTSession_preserves_metrics,
   assignRoomBooking_preserves_metrics, logMaintenanceIssue_preserves_metrics,
   updateMaintenanceStatus_preserves_metrics, createInvoice_preserves_metrics,
   recordPayment_preserves_metrics, runLogs_filter_length⟩

/-- Witness for `healthMetric_append_only` at concrete inputs: one
successful call appends its row, a profile update does not touch metrics,
and two successful calls add exactly two rows for member 1. -/
theorem healthMetric_append_only_witness :
    (logHealthMetric 10 1 5 (some 180) none none none none storeReg).1.health_metrics
      = storeReg.health_metrics ++
        [{ HealthMetricID := 1, MemberID := 1, RecordedDate := 5, Height := some 180 }] ∧
    (updateProfile 0 1 (some (pystr "Zoe")) none none none none none storeReg).1.health_metrics
      = storeReg.health_metrics ∧
    ((runLogs [logC1, logC2] storeReg).health_metrics.filter
        (fun x => decide (x.MemberID = 1))).length
      = (storeReg.health_metrics.filter (fun x => decide (x.MemberID = 1))).length + 2 := by
  obtain ⟨h1, -, -, h4, -, -, -, -, -, -, -, h12⟩ := healthMetric_append_only
  refine ⟨?_, h4 0 1 (some (pystr "Zoe")) none none none none none storeReg, ?_⟩
  · exact (h1 10 1 5 (some 180) none none none none storeReg _ _ rfl).1
  · exact h12 [logC1, logC2] storeReg 1 rfl (by decide)

/-- A successful `register_member` appends exactly the built row, whose
stored email is the trimmed, lower-cased argument. -/
theorem registerMember_ok_shape (today : Int) (fn ln em : PyStr) (dob : Option Int)
    (g ph ad : Option PyStr) (ms : PyStr) (st st' : Store) (m : Member)
    (hc : registerMember today fn ln em dob g ph ad ms st = (st', Except.ok m)) :
    st'.members = st.members ++ [m] ∧ m.Email = pyLower (pyStrip em) := by
  unfold registerMember at hc
  repeat' split at hc
  all_goals simp_all
  obtain ⟨h1, h2⟩ := hc
  subst h1 h2
  exact ⟨rfl, rfl⟩

/-- C2: after a successful registration, any second `register_member` call
whose email equals the first one's after trimming and case-folding fails
with a `ValueError` (some `Err`) and adds no member: either a validation
error fires, or the raw-email pre-check finds the stored row, or the DB
uniqueness constraint on the stored `email.strip().lower()` value rejects
the insert at commit. -/
theorem register_duplicate_email_rejected
    (t1 : Int) (fn1 ln1 em1 : PyStr) (dob1 : Option Int) (g1 ph1 ad1 : Option PyStr)
    (ms1 : PyStr) (st st1 : Store) (m : Member)
    (h1 : registerMember t1 fn1 ln1 em1 dob1 g1 ph1 ad1 ms1 st = (st1, Except.ok m))
    (t2 : Int) (fn2 ln2 em2 : PyStr) (dob2 : Option Int) (g2 ph2 ad2 : Option PyStr)
    (ms2 : PyStr)
    (h2 : pyLower (pyStrip em2) = pyLower (pyStrip em1)) :
    (registerMember t2 fn2 ln2 em2 dob2 g2 ph2 ad2 ms2 st1).1 = st1 ∧
    ∃ e, (registerMember t2 fn2 ln2 em2 dob2 g2 ph2 ad2 ms2 st1).2 = Except.error e := by
  obtain ⟨hmem, hem⟩ := registerMember_ok_shape t1 fn1 ln1 em1 dob1 g1 ph1 ad1 ms1
    st st1 m h1
  have hmm : m ∈ st1.members := by
    rw [hmem]; exact List.mem_append_right _ (List.mem_singleton.mpr rfl)
  unfold registerMember
  split
  · exact ⟨rfl, _, rfl⟩
  · split
    · exact ⟨rfl, _, rfl⟩
    · split
      · exact ⟨rfl, _, rfl⟩
      · rename_i hno
        exact absurd (List.any_eq_true.mpr
          ⟨m, hmm, by rw [beq_iff_eq, hem, ← h2]⟩) hno

/-- C5: `record_payment` is a one-shot `Pending → Paid` transition.  On a
`Paid` invoice every call fails and changes nothing (and, when the call's
own inputs are valid, the error is exactly `already paid`); on a `Pending`
invoice a valid call marks it `Paid`; and a successful call that supplied a
`paid_date` had it inside `[invoice date, today]`. -/
theorem record_payment_one_shot :
    (∀ today iid pm pd st inv,
      st.invoices.find? (fun x => decide (x.InvoiceID = iid)) = some inv →
      inv.PaymentStatus = pystr "Paid" →
      (recordPayment today iid pm pd st).1 = st ∧
      ∃ e, (recordPayment today iid pm pd st).2 = Except.error e) ∧
    (∀ today iid pm pd st inv,
      0 < iid →
      (pyFalsy pm || pyFalsy (pyStrip pm)) = false →
      ¬ pm.length > 50 →
      (pd.any fun d => decide (d > today)) = false →
      st.invoices.find? (fun x => decide (x.InvoiceID = iid)) = some inv →
      inv.PaymentStatus = pystr "Paid" →
      recordPayment today iid pm pd st = (st, Except.error (Err.alreadyPaid iid))) ∧
    (∀ today iid pm pd st inv,
      0 < iid →
      (pyFalsy pm || pyFalsy (pyStrip pm)) = false →
      ¬ pm.length > 50 →
      (pd.any fun d => decide (d > today)) = false →
      st.invoices.find? (fun x => decide (x.InvoiceID = iid)) = some inv →
      inv.PaymentStatus = pystr "Pending" →
      (pd.any fun d => decide (d < inv.InvoiceDate)) = false →
      recordPayment today iid pm pd st =
        (setInvoice st iid { inv with
            PaymentStatus := pystr "Paid"
            PaymentMethod := some (pyStrip pm)
            PaidDate := some (pd.getD today) },
          Except.ok { inv with
            PaymentStatus := pystr "Paid"
            PaymentMethod := some (pyStrip pm)
            PaidDate := some (pd.getD today) })) ∧
    (∀ today iid pm pd st st' i d,
      recordPayment today iid pm pd st = (st', Except.ok i) → pd = some d →
      d ≤ today ∧ i.PaidDate = some d ∧
      ∃ inv, st.invoices.find? (fun x => decide (x.InvoiceID = iid)) = some inv ∧
        inv.InvoiceDate ≤ d) := by
  refine ⟨?_, ?_, ?_, ?_⟩
  · intro today iid pm pd st inv hfind hp
    unfold recordPayment
    repeat' split
    all_goals first
      | exact ⟨rfl, _, rfl⟩
      | simp_all
  · intro today iid pm pd st inv hiid hpm hlen hfut hfind hp
    unfold recordPayment
    repeat' split
    all_goals first
      | rfl
      | omega
      | exact absurd ‹pystr "Paid" = pystr "Paid"› (by simp)
      | simp_all
  · intro today iid pm pd st inv hiid hpm hlen hfut hfind hp hbef
    unfold recordPayment
    repeat' split
    all_goals first
      | rfl
      | omega
      | simp_all
    all_goals exact absurd ‹pystr "Pending" = pystr "Paid"› (by decide)
  · intro today iid pm pd st st' i d hc hd
    subst hd
    unfold recordPayment at hc
    repeat' split at hc
    all_goals simp_all
    all_goals rw [← hc.2]

/-- Witness for `record_payment_one_shot`: paying pending invoice 1
succeeds and marks it `Paid`; paying it again fails with `already paid` and
leaves the store unchanged. -/
theorem record_payment_one_shot_witness :
    recordPayment 10 1 (pystr "Cash") none storeInv
      = (setInvoice storeInv 1 invoicePPaid, Except.ok invoicePPaid) ∧
    recordPayment 11 1 (pystr "Card") none (setInvoice storeInv 1 invoicePPaid)
      = (setInvoice storeInv 1 invoicePPaid, Except.error (Err.alreadyPaid 1)) := by
  obtain ⟨-, hb, hcp, -⟩ := record_payment_one_shot
  constructor
  · exact hcp 10 1 (pystr "Cash") none storeInv invoiceP (by decide) rfl (by decide)
      rfl rfl rfl rfl
  · exact hb 11 1 (pystr "Card") none (setInvoice storeInv 1 invoicePPaid) invoicePPaid
      (by decide) rfl (by decide) rfl rfl rfl

/-- When the guard chain of `update_maintenance_status` accepts, every
individual guard condition was false; this spells out the resulting facts
about the target status and the resolution date. -/
theorem issueUpdateErr_none_facts (today : Int) (issue : MaintenanceIssue)
    (status : Option PyStr) (ard rd : Option Int) (rn : Option PyStr)
    (h : issueUpdateErr today issue status ard rd rn = none) :
    (pyTruthyStr status = true →
      validIssueStatuses.contains (strVal status) = true ∧
      (issue.Status = pystr "Closed" → strVal status = pystr "Closed") ∧
      (issue.Status = pystr "Resolved" →
        strVal status = pystr "Resolved" ∨ strVal status = pystr "Closed")) ∧
    (∀ d, rd = some d →
      (issue.Status = pystr "Resolved" ∨ issue.Status = pystr "Closed") ∧
      issue.ReportedDate ≤ d ∧ d ≤ today ∧ ∀ a, ard = some a → a ≤ d) := by
  unfold issueUpdateErr at h
  repeat' split at h
  any_goals exact Option.noConfusion h
  rename_i h1 h2 h3 h4 h5 h6 h7 h8 h9 h10
  constructor
  · intro hs
    refine ⟨?_, ?_, ?_⟩
    · simp only [hs, Bool.true_and, Bool.not_eq_true', Bool.not_not] at h1
      simpa using h1
    · intro hC
      have hd : decide (issue.Status = pystr "Closed") = true := decide_eq_true hC
      simp only [hs, hd, Bool.true_and, Bool.not_eq_true', Bool.not_not] at h2
      simpa [beq_iff_eq] using h2
    · intro hR
      have hd : decide (issue.Status = pystr "Resolved") = true := decide_eq_true hR
      simp only [hs, hd, Bool.true_and, Bool.not_eq_true', Bool.not_not] at h3
      exact or_iff_not_imp_left.mpr (by simpa using h3)
  · intro d hd
    subst hd
    refine ⟨?_, ?_, ?_, ?_⟩
    · simp only [Option.isSome_some, Bool.true_and, Bool.not_eq_true',
        Bool.not_not] at h6
      exact or_iff_not_imp_left.mpr (by simpa using h6)
    · simp at h7
      omega
    · simp at h8
      omega
    · intro a ha
      subst ha
      simp [intVal] at h9
      omega

/-- A successful `update_maintenance_status` found the issue, passed the
guard chain, and replaced exactly the supplied fields. -/
theorem updateMaintenanceStatus_ok_shape (today : Int) (iid : Int)
    (status : Option PyStr) (ard rd : Option Int) (rn : Option PyStr)
    (st st' : Store) (i' : MaintenanceIssue)
    (hc : updateMaintenanceStatus today iid status ard rd rn st = (st', Except.ok i')) :
    ∃ issue, st.issues.find? (fun x => decide (x.IssueID = iid)) = some issue ∧
      issueUpdateErr today issue status ard rd rn = none ∧
      i' = { issue with
        Status := if pyTruthyStr status then strVal status else issue.Status
        AssignedRepairDate := if ard.isSome then ard else issue.AssignedRepairDate
        ResolutionDate := if rd.isSome then rd else issue.ResolutionDate
        ResolutionNotes := if pyTruthyStr rn then some (pyStrip (strVal rn))
          else issue.ResolutionNotes } ∧
      st' = setIssue st iid i' := by
  unfold updateMaintenanceStatus at hc
  repeat' split at hc
  all_goals simp_all
  all_goals rw [← hc.2, ← hc.1]

/-- C3 (amended): a successful `update_maintenance_status` call that
supplies a truthy target status stores exactly that status, and the only
transition restrictions enforced are: a `Closed` issue accepts only target
`Closed`, and a `Resolved` issue accepts only `Resolved` or `Closed`.  From
`Open` or `In Progress` every valid target is accepted, including backward
moves such as `In Progress → Open`. -/
theorem maintenanceStatus_transition_guard :
    (∀ today iid status ard rd rn st st' i',
      updateMaintenanceStatus today iid status ard rd rn st = (st', Except.ok i') →
      pyTruthyStr status = true →
      ∃ issue, st.issues.find? (fun x => decide (x.IssueID = iid)) = some issue ∧
        i'.Status = strVal status ∧
        validIssueStatuses.contains (strVal status) = true ∧
        (issue.Status = pystr "Closed" → strVal status = pystr "Closed") ∧
        (issue.Status = pystr "Resolved" →
          strVal status = pystr "Resolved" ∨ strVal status = pystr "Closed")) ∧
    (∀ today iid (s : PyStr) st issue,
      0 < iid →
      st.issues.find? (fun x => decide (x.IssueID = iid)) = some issue →
      issue.Status = pystr "Open" ∨ issue.Status = pystr "In Progress" →
      s ≠ [] →
      s ∈ validIssueStatuses →
      updateMaintenanceStatus today iid (some s) none none none st
        = (setIssue st iid { issue with Status := s },
           Except.ok { issue with Status := s })) := by
  constructor
  · intro today iid status ard rd rn st st' i' hc hs
    obtain ⟨issue, hfind, hnone, hi, -⟩ :=
      updateMaintenanceStatus_ok_shape today iid status ard rd rn st st' i' hc
    obtain ⟨hstat, -⟩ := issueUpdateErr_none_facts today issue status ard rd rn hnone
    obtain ⟨hvalid, hclosed, hres⟩ := hstat hs
    exact ⟨issue, hfind, by rw [hi]; simp [hs], hvalid, hclosed, hres⟩
  · intro today iid s st issue hiid hfind hst hsne hsval
    have hstrue : pyTruthyStr (some s) = true := by
      simp [pyTruthyStr, hsne]
    have hnClosed : decide (issue.Status = pystr "Closed") = false := by
      rcases hst with h | h <;> rw [h] <;> decide
    have hnRes : decide (issue.Status = pystr "Resolved") = false := by
      rcases hst with h | h <;> rw [h] <;> decide
    have hguard : issueUpdateErr today issue (some s) none none none = none := by
      unfold issueUpdateErr
      simp [hstrue, hnClosed, hnRes, strVal, hsval]
    have h0 : ¬ iid ≤ 0 := by omega
    have h1 : ¬(some s = none ∧ (none : Option Int) = none ∧
        (none : Option Int) = none ∧ (none : Option PyStr) = none) := by simp
    unfold updateMaintenanceStatus
    simp only [if_neg h0, if_neg h1, hfind, hguard]
    simp [hstrue, strVal, pyTruthyStr, hsne]

/-- Witness for `maintenanceStatus_transition_guard`: issue 1 of
`storeIssues` is `In Progress`; setting status `Open` succeeds (backward
move), and the success is governed by the guard characterisation. -/
theorem maintenanceStatus_transition_guard_witness :
    updateMaintenanceStatus 5 1 (some (pystr "Open")) none none none storeIssues
      = (setIssue storeIssues 1 { issueIP with Status := pystr "Open" },
         Except.ok { issueIP with Status := pystr "Open" }) ∧
    (pystr "Open" : PyStr) ≠ pystr "Closed" ∧ issueIP.Status = pystr "In Progress" := by
  refine ⟨?_, by decide, rfl⟩
  exact maintenanceStatus_transition_guard.2 5 1 (pystr "Open") storeIssues issueIP
    (by decide) rfl (Or.inr rfl) (by decide) (by decide)

/-- C7 (amended): a successful `update_maintenance_status` call supplying a
resolution date found the issue in status `Resolved` or `Closed`, the date
lies in `[reported date, today]`, it is not before an assigned repair date
*supplied in the same call*, and it is stored; the repair date already
stored on the issue is not consulted. -/
theorem resolutionDate_acceptance_rules :
    ∀ today iid status ard rn st st' i' d,
      updateMaintenanceStatus today iid status ard (some d) rn st
        = (st', Except.ok i') →
      ∃ issue, st.issues.find? (fun x => decide (x.IssueID = iid)) = some issue ∧
        (issue.Status = pystr "Resolved" ∨ issue.Status = pystr "Closed") ∧
        issue.ReportedDate ≤ d ∧ d ≤ today ∧
        (∀ a, ard = some a → a ≤ d) ∧
        i'.ResolutionDate = some d := by
  intro today iid status ard rn st st' i' d hc
  obtain ⟨issue, hfind, hnone, hi, -⟩ :=
    updateMaintenanceStatus_ok_shape today iid status ard (some d) rn st st' i' hc
  obtain ⟨-, hres⟩ := issueUpdateErr_none_facts today issue status ard (some d) rn hnone
  obtain ⟨hcont, h1, h2, h3⟩ := hres d rfl
  exact ⟨issue, hfind, hcont, h1, h2, h3, by simp [hi]⟩

/-- Witness for `resolutionDate_acceptance_rules`: setting resolution date
3 on resolved issue 2 of `storeIssues` succeeds, and the rules instantiate
to the concrete bounds. -/
theorem resolutionDate_acceptance_rules_witness :
    issueRes.ReportedDate ≤ 3 ∧ (3 : Int) ≤ 10 ∧
    (updateMaintenanceStatus 10 2 none none (some 3) none storeIssues).2
      = Except.ok { issueRes with ResolutionDate := some 3 } := by
  obtain ⟨issue, hfind, -, h1, h2, -, -⟩ :=
    resolutionDate_acceptance_rules 10 2 none none none storeIssues _ _ 3 rfl
  have : issue = issueRes := by
    have hconc : storeIssues.issues.find? (fun x => decide (x.IssueID = 2))
        = some issueRes := rfl
    rw [hconc] at hfind
    exact (Option.some.inj hfind).symm
  subst this
  exact ⟨h1, h2, rfl⟩

/-- C4: the spec promises that a failing operation performs no partial
mutation (transaction rolled back), and in particular that a failing
`update_profile` call with a valid `first_name` and an invalid `last_name`
leaves every field of the member unchanged.  The code violates this: it
assigns `member.FirstName` before validating `last_name` and raises without
rolling back, so the member record visible through the shared session keeps
the new first name.  Evaluated at the failing input
`update_profile(member_id=1, first_name="Bob", last_name="   ")`. -/
theorem updateProfile_failed_call_mutates_store :
    (updateProfile 0 1 (some (pystr "Bob")) (some (pystr "   ")) none none none none
        storeReg).2 = Except.error Err.lastNameEmpty ∧
    (updateProfile 0 1 (some (pystr "Bob")) (some (pystr "   ")) none none none none
        storeReg).1.members = [{ memberU with FirstName := pystr "Bob" }] ∧
    memberU.FirstName = pystr "Alice" ∧
    (updateProfile 0 1 (some (pystr "Bob")) (some (pystr "   ")) none none none none
        storeReg).1 ≠ storeReg :=
  ⟨rfl, rfl, rfl, by decide⟩

/-- Witness for `register_duplicate_email_rejected`: registering
`carl@mail.com` and then ` Carl@Mail.com ` (same email after trimming and
case-folding) fails the second time with the duplicate-email error and
leaves the member table unchanged. -/
theorem register_duplicate_email_rejected_witness :
    (registerMember 21 (pystr "Dee") (pystr "Dupe") (pystr " Carl@Mail.com ") none none
        none none (pystr "Active")
        (registerMember 20 (pystr "Carl") (pystr "Young") (pystr "carl@mail.com") none
          none none none (pystr "Active") storeReg).1).1
      = (registerMember 20 (pystr "Carl") (pystr "Young") (pystr "carl@mail.com") none
          none none none (pystr "Active") storeReg).1 ∧
    (registerMember 21 (pystr "Dee") (pystr "Dupe") (pystr " Carl@Mail.com ") none none
        none none (pystr "Active")
        (registerMember 20 (pystr "Carl") (pystr "Young") (pystr "carl@mail.com") none
          none none none (pystr "Active") storeReg).1).2
      = Except.error (Err.emailExists (pystr " Carl@Mail.com ")) := by
  refine ⟨?_, rfl⟩
  exact (register_duplicate_email_rejected 20 (pystr "Carl") (pystr "Young")
    (pystr "carl@mail.com") none none none none (pystr "Active") storeReg _ _ rfl
    21 (pystr "Dee") (pystr "Dupe") (pystr " Carl@Mail.com ") none none none none
    (pystr "Active") (by decide)).1

/-- C1: scheduling against a trainer who already has a session on the same
date whose half-open interval strictly overlaps the request fails with the
conflict error naming the colliding session and writes nothing; sessions of
that trainer and date that merely touch the requested interval are not
found by the trainer-overlap scan. -/
theorem schedule_trainer_conflict_strict :
    (∀ today member_id trainer_id session_date (start_time end_time : Nat) room_id
        session_type duration_minutes max_capacity notes st,
      scheduleInputErr today member_id trainer_id session_date start_time end_time
          room_id session_type max_capacity = none →
      (st.members.any fun x => x.MemberID == member_id) = true →
      (st.trainers.any fun x => x.TrainerID == trainer_id) = true →
      scheduleRoomErr st room_id session_type max_capacity = none →
      (∃ x ∈ st.sessions,
        trainerOverlap trainer_id session_date start_time end_time x) →
      ∃ c, trainerScan st trainer_id session_date start_time end_time = some c ∧
        trainerOverlap trainer_id session_date start_time end_time c ∧
        schedulePTSession today member_id trainer_id session_date start_time end_time
            room_id session_type duration_minutes max_capacity notes st
          = (st, Except.error (Err.trainerConflict c.SessionID c.StartTime c.EndTime))) ∧
    (∀ st trainer_id session_date (start_time end_time : Nat),
      (∀ x ∈ st.sessions, x.TrainerID = trainer_id → x.SessionDate = session_date →
        x.EndTime = start_time ∨ x.StartTime = end_time) →
      trainerScan st trainer_id session_date start_time end_time = none) := by
  constructor
  · intro today member_id trainer_id session_date start_time end_time room_id
      session_type duration_minutes max_capacity notes st hinput hm ht hroom hex
    have hsome : (trainerScan st trainer_id session_date start_time end_time).isSome := by
      rw [trainerScan, List.find?_isSome]
      obtain ⟨x, hx, hov⟩ := hex
      exact ⟨x, hx, decide_eq_true hov⟩
    obtain ⟨c, hc⟩ := Option.isSome_iff_exists.mp hsome
    have hc' := hc
    rw [trainerScan] at hc'
    have hp := List.find?_some hc'
    refine ⟨c, hc, of_decide_eq_true hp, ?_⟩
    unfold schedulePTSession
    simp only [hinput, hm, ht, hroom, hc, if_true]
  · intro st trainer_id session_date start_time end_time htouch
    rw [trainerScan, List.find?_eq_none]
    intro x hx
    simp only [decide_eq_true_eq]
    rintro ⟨h1, h2, h3, h4⟩
    rcases htouch x hx h1 h2 with he | hs
    · omega
    · omega

/-- Witness for `schedule_trainer_conflict_strict`: booking trainer 1 at
10:30-11:30 on day 10 collides with session 1 (10:00-11:00) and fails with
the conflict error; the scan finds nothing for the touching request
11:00-12:00. -/
theorem schedule_trainer_conflict_strict_witness :
    schedulePTSession 5 2 1 10 37800 41400 none (pystr "Personal Training")
        none none none storeSched
      = (storeSched, Except.error (Err.trainerConflict 1 36000 39600)) ∧
    trainerScan storeSched 1 10 39600 43200 = none := by
  constructor
  · obtain ⟨c, hc, -, hres⟩ := schedule_trainer_conflict_strict.1 5 2 1 10 37800 41400
      none (pystr "Personal Training") none none none storeSched rfl rfl rfl rfl
      ⟨sessionS, by decide, by decide⟩
    have hcs : trainerScan storeSched 1 10 37800 41400 = some sessionS := rfl
    rw [hcs] at hc
    have : c = sessionS := (Option.some.inj hc).symm
    subst this
    exact hres
  · exact schedule_trainer_conflict_strict.2 storeSched 1 10 39600 43200 (by decide)

/-- C8 (amended): every session created by a successful
`schedule_pt_session` call keeps the requested interval bounds; when
`duration_minutes` is not supplied, `DurationMinutes` is computed as
`end − start` in whole minutes, and when it is supplied, the given value is
stored verbatim (no consistency check against the bounds). -/
theorem schedule_duration_semantics :
    ∀ today member_id trainer_id session_date (start_time end_time : Nat) room_id
        session_type duration_minutes max_capacity notes st st' sess,
      schedulePTSession today member_id trainer_id session_date start_time end_time
          room_id session_type duration_minutes max_capacity notes st
        = (st', Except.ok sess) →
      sess.StartTime = start_time ∧ sess.EndTime = end_time ∧
      (duration_minutes = none →
        sess.DurationMinutes = some (((end_time - start_time) / 60 : Nat) : Int)) ∧
      (∀ v, duration_minutes = some v → sess.DurationMinutes = some v) := by
  intro today member_id trainer_id session_date start_time end_time room_id
    session_type duration_minutes max_capacity notes st st' sess hc
  unfold schedulePTSession at hc
  repeat' split at hc
  all_goals simp_all
  all_goals obtain ⟨h1, h2⟩ := hc
  all_goals subst h2
  all_goals simp

/-- Witness for `schedule_duration_semantics`: a 12:00-13:00 booking without
`duration_minutes` stores 60 minutes. -/
theorem schedule_duration_semantics_witness :
    (schedulePTSession 5 2 1 10 43200 46800 none (pystr "Personal Training")
        none none none storeSched).2.map (fun s => s.DurationMinutes)
      = Except.ok (some 60) := by
  obtain ⟨-, -, h3, -⟩ := schedule_duration_semantics 5 2 1 10 43200 46800 none
    (pystr "Personal Training") none none none storeSched _ _ rfl
  have h60 : (((46800 - 43200 : Nat) / 60 : Nat) : Int) = 60 := by decide
  rw [show (schedulePTSession 5 2 1 10 43200 46800 none (pystr "Personal Training")
      none none none storeSched).2
    = Except.ok
        { SessionID := 2
          MemberID := 2
          TrainerID := 1
          RoomID := none
          SessionDate := 10
          StartTime := 43200
          EndTime := 46800
          DurationMinutes := some 60
          SessionType := pystr "Personal Training" } from rfl]
  rfl

/-- C9: `assign_room_booking` rejects re-assigning the session's current
room as an error rather than a silent no-op, and its conflict scan excludes
the session being modified by its own key, so any conflict it reports is
with a different session, and a session whose only "conflict" would be
itself is assigned successfully. -/
theorem assign_room_noop_and_self_exclusion :
    (∀ today session_id room_id st s room,
      0 < session_id → 0 < room_id →
      st.sessions.find? (fun x => decide (x.SessionID = session_id)) = some s →
      ¬ s.SessionDate < today →
      st.rooms.find? (fun x => decide (x.RoomID = room_id)) = some room →
      s.RoomID = some room_id →
      assignRoomBooking today session_id room_id st
        = (st, Except.error (Err.roomAlreadyAssigned room_id))) ∧
    (∀ today session_id room_id st cid ct cd,
      (assignRoomBooking today session_id room_id st).2
        = Except.error (Err.roomBookedAssign cid ct cd) →
      cid ≠ session_id) ∧
    (∀ today session_id room_id st s room,
      0 < session_id → 0 < room_id →
      st.sessions.find? (fun x => decide (x.SessionID = session_id)) = some s →
      ¬ s.SessionDate < today →
      st.rooms.find? (fun x => decide (x.RoomID = room_id)) = some room →
      ¬ s.RoomID = some room_id →
      ¬ (s.SessionType = pystr "Group Class" ∧ pyTruthyInt s.MaxCapacity = true ∧
        pyTruthyInt room.RoomCapacity = true ∧
        intVal s.MaxCapacity > intVal room.RoomCapacity) →
      (∀ x ∈ st.sessions, x.SessionID ≠ session_id →
        ¬ (x.RoomID = some room_id ∧ x.SessionDate = s.SessionDate ∧
          x.StartTime < s.EndTime ∧ x.EndTime > s.StartTime)) →
      assignRoomBooking today session_id room_id st
        = (setSession st session_id { s with RoomID := some room_id },
           Except.ok { s with RoomID := some room_id })) := by
  refine ⟨?_, ?_, ?_⟩
  · intro today session_id room_id st s room h1 h2 hfs hpast hfr hsame
    have h1' : ¬ session_id ≤ 0 := by omega
    have h2' : ¬ room_id ≤ 0 := by omega
    unfold assignRoomBooking
    simp only [if_neg h1', if_neg h2', hfs, if_neg hpast, hfr, if_pos hsame]
  · intro today session_id room_id st cid ct cd h
    unfold assignRoomBooking at h
    repeat' split at h
    all_goals simp_all
    rename_i c hscan
    rw [assignRoomScan] at hscan
    have hp := List.find?_some hscan
    obtain ⟨-, -, -, -, hne⟩ := of_decide_eq_true hp
    rw [← h.1]
    exact hne
  · intro today session_id room_id st s room h1 h2 hfs hpast hfr hsame hcap hnc
    have h1' : ¬ session_id ≤ 0 := by omega
    have h2' : ¬ room_id ≤ 0 := by omega
    have hscan : assignRoomScan st room_id s session_id = none := by
      rw [assignRoomScan, List.find?_eq_none]
      intro x hx
      simp only [decide_eq_true_eq]
      rintro ⟨ha, hb, hc', hd', hne⟩
      exact hnc x hx hne ⟨ha, hb, hc', hd'⟩
    unfold assignRoomBooking
    simp only [if_neg h1', if_neg h2', hfs, if_neg hpast, hfr, if_neg hsame,
      if_neg hcap, hscan]

/-- Witness for `assign_room_noop_and_self_exclusion`: re-assigning room 1
to session 1 (already in room 1) errors; the conflict reported when moving
session 1 into occupied room 2 names session 2, not session 1; and moving
session 1 into free room 3 succeeds. -/
theorem assign_room_noop_and_self_exclusion_witness :
    assignRoomBooking 5 1 1 storeAssign
      = (storeAssign, Except.error (Err.roomAlreadyAssigned 1)) ∧
    (2 : Int) ≠ 1 ∧
    assignRoomBooking 5 1 3 storeAssign
      = (setSession storeAssign 1 { sessionS with RoomID := some 3 },
         Except.ok { sessionS with RoomID := some 3 }) := by
  refine ⟨?_, ?_, ?_⟩
  · exact assign_room_noop_and_self_exclusion.1 5 1 1 storeAssign sessionS roomR1
      (by decide) (by decide) rfl (by decide) rfl rfl
  · exact assign_room_noop_and_self_exclusion.2.1 5 1 2 storeAssign 2 36000 10 rfl
  · exact assign_room_noop_and_self_exclusion.2.2 5 1 3 storeAssign sessionS roomR3
      (by decide) (by decide) rfl (by decide) rfl (by decide) (by decide) (by decide)

set_option maxHeartbeats 1000000 in
/-- C10: a `schedule_pt_session` call with session type `Group Class` whose
other inputs are valid is rejected when `max_capacity` is missing or
non-positive, and rejected when it exceeds 100 — for every store, so the
bound applies regardless of any room's capacity; conversely a successful
Group Class booking always carries a capacity in `(0, 100]`. -/
theorem group_class_capacity_bounds :
    (∀ today member_id trainer_id session_date (start_time end_time : Nat) room_id
        duration_minutes max_capacity notes st,
      ¬ member_id ≤ 0 → ¬ trainer_id ≤ 0 →
      (room_id.any fun r => decide (r ≤ 0)) = false →
      ¬ session_date < today → ¬ session_date - today > 365 →
      ¬ start_time ≥ end_time →
      ¬ end_time - start_time < 900 → ¬ end_time - start_time > 28800 →
      (max_capacity = none ∨ intVal max_capacity ≤ 0) →
      schedulePTSession today member_id trainer_id session_date start_time end_time
          room_id (pystr "Group Class") duration_minutes max_capacity notes st
        = (st, Except.error Err.groupCapacityRequired)) ∧
    (∀ today member_id trainer_id session_date (start_time end_time : Nat) room_id
        duration_minutes max_capacity notes st,
      ¬ member_id ≤ 0 → ¬ trainer_id ≤ 0 →
      (room_id.any fun r => decide (r ≤ 0)) = false →
      ¬ session_date < today → ¬ session_date - today > 365 →
      ¬ start_time ≥ end_time →
      ¬ end_time - start_time < 900 → ¬ end_time - start_time > 28800 →
      ¬ (max_capacity = none ∨ intVal max_capacity ≤ 0) →
      intVal max_capacity > 100 →
      schedulePTSession today member_id trainer_id session_date start_time end_time
          room_id (pystr "Group Class") duration_minutes max_capacity notes st
        = (st, Except.error Err.groupCapacityTooHigh)) ∧
    (∀ today member_id trainer_id session_date (start_time end_time : Nat) room_id
        duration_minutes max_capacity notes st st' sess,
      schedulePTSession today member_id trainer_id session_date start_time end_time
          room_id (pystr "Group Class") duration_minutes max_capacity notes st
        = (st', Except.ok sess) →
      ∃ v, max_capacity = some v ∧ 0 < v ∧ v ≤ 100) := by
  refine ⟨?_, ?_, ?_⟩
  · intro today member_id trainer_id session_date start_time end_time room_id
      duration_minutes max_capacity notes st h1 h2 h3 h4 h5 h6 h7 h8 hc
    have hin : scheduleInputErr today member_id trainer_id session_date start_time
        end_time room_id (pystr "Group Class") max_capacity
        = some Err.groupCapacityRequired := by
      unfold scheduleInputErr
      rw [if_neg h1, if_neg h2, if_neg (by simp [h3]), if_neg h4, if_neg h5,
        if_neg h6, if_neg h7, if_neg h8, if_neg (by decide), if_pos ⟨rfl, hc⟩]
    unfold schedulePTSession
    simp only [hin]
  · intro today member_id trainer_id session_date start_time end_time room_id
      duration_minutes max_capacity notes st h1 h2 h3 h4 h5 h6 h7 h8 hc hbig
    have hin : scheduleInputErr today member_id trainer_id session_date start_time
        end_time room_id (pystr "Group Class") max_capacity
        = some Err.groupCapacityTooHigh := by
      unfold scheduleInputErr
      rw [if_neg h1, if_neg h2, if_neg (by simp [h3]), if_neg h4, if_neg h5,
        if_neg h6, if_neg h7, if_neg h8, if_neg (by decide),
        if_neg (by rintro ⟨-, hx⟩; exact hc hx), if_pos ⟨rfl, hbig⟩]
    unfold schedulePTSession
    simp only [hin]
  · intro today member_id trainer_id session_date start_time end_time room_id
      duration_minutes max_capacity notes st st' sess hc
    have hnone : scheduleInputErr today member_id trainer_id session_date start_time
        end_time room_id (pystr "Group Class") max_capacity = none := by
      unfold schedulePTSession at hc
      split at hc
      · simp at hc
      · assumption
    unfold scheduleInputErr at hnone
    repeat' split at hnone
    any_goals exact Option.noConfusion hnone
    rename_i g1 g2 g3 g4 g5 g6 g7 g8 g9 g10 g11
    simp only [not_and, not_or, not_le] at g10 g11
    obtain ⟨hne, hpos⟩ := g10 trivial
    match max_capacity, hne with
    | some v, _ =>
      refine ⟨v, rfl, ?_, ?_⟩
      · simpa [intVal] using hpos
      · have := g11 trivial
        simpa [intVal] using this

/-- Witness for `group_class_capacity_bounds`: with all other inputs valid,
a Group Class with capacity 150 is rejected by the 100 bound even in
`storeSched`, whose rooms hold at most 10; a capacity-5 Group Class in room
1 (capacity 10) on a free slot succeeds. -/
theorem group_class_capacity_bounds_witness :
    schedulePTSession 5 2 1 10 43200 46800 (some 1) (pystr "Group Class")
        none (some 150) none storeSched
      = (storeSched, Except.error Err.groupCapacityTooHigh) ∧
    schedulePTSession 5 2 1 10 43200 46800 none (pystr "Group Class")
        none none none storeSched
      = (storeSched, Except.error Err.groupCapacityRequired) ∧
    (5 : Int) ≤ 100 := by
  refine ⟨?_, ?_, ?_⟩
  · exact group_class_capacity_bounds.2.1 5 2 1 10 43200 46800 (some 1) none
      (some 150) none storeSched (by decide) (by decide) rfl (by decide) (by decide)
      (by decide) (by decide) (by decide) (by simp [intVal]) (by simp [intVal])
  · exact group_class_capacity_bounds.1 5 2 1 10 43200 46800 none none
      none none storeSched (by decide) (by decide) rfl (by decide) (by decide)
      (by decide) (by decide) (by decide) (Or.inl rfl)
  · obtain ⟨v, hv, -, hle⟩ := group_class_capacity_bounds.2.2 5 2 1 10 43200 46800
      (some 1) none (some 5) none storeSched _ _ rfl
    injection hv with h
    subst h
    exact hle

/-- C3 counterexample: `update_maintenance_status` accepts the backward
transition `In Progress → Open`; on issue 1 (status `In Progress`) a call
supplying target status `Open` succeeds and stores `Open`, contradicting
the claim that no status ever moves backward. -/
theorem maintenanceStatus_backward_accepted :
    (updateMaintenanceStatus 5 1 (some (pystr "Open")) none none none storeIssues).2
      = Except.ok { issueIP with Status := pystr "Open" } ∧
    issueIP.Status = pystr "In Progress" :=
  ⟨rfl, rfl⟩

/-- C7 counterexample: issue 2 has status `Resolved`, reported day 0, and a
*stored* assigned repair date of day 5; a call supplying only
`resolution_date = 2` (before the stored repair date) succeeds, because the
code compares the resolution date only against the `assigned_repair_date`
argument of the same call, never against the stored one. -/
theorem resolutionDate_ignores_stored_repairDate :
    (updateMaintenanceStatus 10 2 none none (some 2) none storeIssues).2
      = Except.ok { issueRes with ResolutionDate := some 2 } ∧
    issueRes.AssignedRepairDate = some 5 ∧ (2 : Int) < 5 :=
  ⟨rfl, rfl, by decide⟩

/-- C8 counterexample: `schedule_pt_session` stores a caller-supplied
`duration_minutes` verbatim; scheduling a 12:00-13:00 session (60 minutes)
with `duration_minutes=999` succeeds and stores 999, contradicting the
claim that `DurationMinutes` always equals `end_time - start_time`. -/
theorem scheduleSession_duration_override_accepted :
    (schedulePTSession 5 1 1 10 43200 46800 none (pystr "Personal Training")
        (some 999) none none storeSched).2
      = Except.ok
          { SessionID := 2, TrainerID := 1, MemberID := 1, RoomID := none,
            SessionDate := 10, StartTime := 43200, EndTime := 46800,
            DurationMinutes := some 999,
            SessionType := pystr "Personal Training" } ∧
    ((46800 - 43200 : Nat) / 60 : Int) = 60 ∧ (999 : Int) ≠ 60 :=
  ⟨rfl, by decide, by decide⟩

end Gym
